import Mathlib

/-!
Verification development for the platformapi service of the Capstone-Project
repository (src/apps/platformapi/main.py).

The Python module is embedded shallowly:
  - `parse_play_recap` is translated literally (regex search for the
    "PLAY RECAP ***" header, lazy capture up to the first blank line,
    `str.strip`, `str.splitlines`, `line.split(":", 1)` and the
    `(\w+)=([0-9]+)` scan) over `List Char`;
  - the global mutable state (the `RUNS` deque of maxlen 50, the Prometheus
    gauges and counters, the APScheduler job table) becomes an explicit
    `ApiState` record threaded through the operations;
  - the external process runner (`subprocess.run`) is abstracted by a
    `ProcOutcome` input: it either completes with an exit code and captured
    stdout/stderr, raises `subprocess.TimeoutExpired`, raises
    `FileNotFoundError` (both caught by the source), or raises some other
    `OSError` such as `PermissionError` (caught by nothing in the source, so
    it propagates out of `execute_action`).
-/

/-! ## Output parser (`parse_play_recap`, main.py lines 152-172) -/

/-- Is `pre` a prefix of the second list (character-wise)? -/
def leadsWith : List Char → List Char → Bool
  | [], _ => true
  | _ :: _, [] => false
  | p :: ps, c :: cs => p == c && leadsWith ps cs

/-- Drop the prefix `pre` from `cs`, or fail when `pre` is not a prefix. -/
def dropLead : List Char → List Char → Option (List Char)
  | [], cs => some cs
  | _ :: _, [] => none
  | p :: ps, c :: cs => if p == c then dropLead ps cs else none

/-- Does `needle` occur as a contiguous subsequence of the list?
(Models Python `in` on strings, used for the mainframe-config detection.) -/
def containsSeq (needle : List Char) : List Char → Bool
  | [] => leadsWith needle []
  | c :: t => leadsWith needle (c :: t) || containsSeq needle t

/-- Match the regex `PLAY RECAP \*+\n` at the head of the character list,
returning the characters after the newline.  Backtracking over greedy `\*+`
never helps (a shorter star-run is followed by another star, not a newline),
so the match succeeds exactly when the literal header is followed by at least
one star and then a newline. -/
def recapHeaderRest (cs : List Char) : Option (List Char) :=
  match dropLead ("PLAY RECAP ").toList cs with
  | none => none
  | some rest =>
    match rest.dropWhile (fun c => c == '*') with
    | '\n' :: tail =>
        if (rest.takeWhile (fun c => c == '*')).length ≥ 1 then some tail else none
    | _ => none

/-- `re.search` of `PLAY RECAP \*+\n`: try the header match at every
position, left to right; return the characters after the first match. -/
def findRecapTail : List Char → Option (List Char)
  | [] => none
  | c :: t =>
    match recapHeaderRest (c :: t) with
    | some r => some r
    | none => findRecapTail t

/-- The lazy capture `(.*?)(?:\n\n|\Z)` with `re.DOTALL`: everything up to
the first blank line (two consecutive newlines), or to the end of input. -/
def captureBody : List Char → List Char
  | [] => []
  | '\n' :: '\n' :: _ => []
  | c :: t => c :: captureBody t

/-- The whitespace characters removed by Python `str.strip()`. -/
def isPySpace (c : Char) : Bool :=
  c == ' ' || c == '\t' || c == '\n' || c == '\r' || c == '\x0c' || c == '\x0b'

/-- Python `str.strip()`. -/
def stripChars (cs : List Char) : List Char :=
  ((cs.dropWhile isPySpace).reverse.dropWhile isPySpace).reverse

/-- Worker for `pySplitlines`; `acc` holds the current line reversed. -/
def splitlinesGo (acc : List Char) : List Char → List (List Char)
  | [] => [acc.reverse]
  | '\r' :: '\n' :: rest =>
      acc.reverse :: (if rest.isEmpty then [] else splitlinesGo [] rest)
  | '\n' :: rest =>
      acc.reverse :: (if rest.isEmpty then [] else splitlinesGo [] rest)
  | '\r' :: rest =>
      acc.reverse :: (if rest.isEmpty then [] else splitlinesGo [] rest)
  | c :: rest => splitlinesGo (c :: acc) rest

/-- Python `str.splitlines()` restricted to the line boundaries that occur in
ansible output (`\n`, `\r\n`, `\r`): no entry for a trailing terminator, and
the empty string yields no lines. -/
def pySplitlines (cs : List Char) : List (List Char) :=
  if cs.isEmpty then [] else splitlinesGo [] cs

/-- Python `line.split(":", 1)`: split at the first colon; `none` when the
line holds no colon (the source then skips the line). -/
def splitFirstColon : List Char → Option (List Char × List Char)
  | [] => none
  | ':' :: t => some ([], t)
  | c :: t => (splitFirstColon t).map (fun p => (c :: p.1, p.2))

/-- ASCII reading of the regex class `\w` (the hostnames and stat keys in a
play recap are ASCII). -/
def isWordChar (c : Char) : Bool := c.isAlphanum || c == '_'

/-- Match `(\w+)=([0-9]+)` at the head of the list.  Both quantifiers are
greedy; backtracking cannot move the `=` (a shorter `\w+` run is followed by
a word character).  On success returns the two captured groups and the
remaining characters. -/
def matchKV (cs : List Char) : Option ((List Char × List Char) × List Char) :=
  let w := cs.takeWhile isWordChar
  let rest := cs.dropWhile isWordChar
  if w.isEmpty then none
  else
    match rest with
    | '=' :: r2 =>
      let d := r2.takeWhile Char.isDigit
      let r3 := r2.dropWhile Char.isDigit
      if d.isEmpty then none else some ((w, d), r3)
    | _ => none

/-- `re.finditer` scan for `(\w+)=([0-9]+)`: try a match at each position,
resuming after the end of every match.  A successful match consumes at least
three characters while the fuel drops by one, so fuel `cs.length` is always
sufficient and the function is total on its intended use. -/
def finditerKVGo : Nat → List Char → List (List Char × List Char)
  | 0, _ => []
  | _ + 1, [] => []
  | n + 1, c :: t =>
    match matchKV (c :: t) with
    | some (kv, rest) => kv :: finditerKVGo n rest
    | none => finditerKVGo n t

/-- All matches of `(\w+)=([0-9]+)` in the list, left to right. -/
def finditerKV (cs : List Char) : List (List Char × List Char) :=
  finditerKVGo cs.length cs

/-- `int` of a digit string. -/
def digitsToNat (ds : List Char) : Nat :=
  ds.foldl (fun acc c => acc * 10 + (c.toNat - '0'.toNat)) 0

/-- Python dict assignment `m[k] = v`: keep the first-insertion position of
an existing key but replace its value; append a fresh key at the end. -/
def dictInsert {β : Type} (m : List (String × β)) (k : String) (v : β) :
    List (String × β) :=
  if m.any (fun p => p.1 == k) then
    m.map (fun p => if p.1 == k then (k, v) else p)
  else m ++ [(k, v)]

/-- The per-host statistics extracted from a play recap. -/
abbrev RecapSummary := List (String × List (String × Nat))

/-- `parse_play_recap` (main.py lines 152-172), translated clause by clause:
empty input returns the empty mapping; a missing `PLAY RECAP ***` header
returns the empty mapping; otherwise the captured block is stripped, split
into lines, each line split at its first colon (lines without one are
skipped), and the `k=v` pairs of the right part become the host's stats,
later duplicates winning. -/
def parse_play_recap (output : String) : RecapSummary :=
  let cs := output.toList
  if cs.isEmpty then []
  else
    match findRecapTail cs with
    | none => []
    | some tail =>
      let body := stripChars (captureBody tail)
      (pySplitlines body).foldl
        (fun summary line =>
          match splitFirstColon line with
          | none => summary
          | some (before, after) =>
            let host := String.mk (stripChars before)
            let stats := (finditerKV after).foldl
              (fun m kv => dictInsert m (String.mk kv.1) (digitsToNat kv.2)) []
            dictInsert summary host stats)
        []

/-! ## Action registry (`ACTIONS`, main.py lines 40-71) -/

/-- One entry of the `ACTIONS` dict. -/
structure ActionMeta where
  label : String
  description : String
  playbook : String
  limit : Option String
deriving DecidableEq, Repr

/-- The static `ACTIONS` registry.  `BASE_DIR` is the directory of the
source file at runtime, so the registry is parametrised by it. -/
def ACTIONS (baseDir : String) : List (String × ActionMeta) :=
  [ ("ec2_ping",
      { label := "Ping EC2 targets",
        description := "Runs Ansible ping against the EC2 targets in inventory.yml (group: platformapi).",
        playbook := baseDir ++ "/ansible/ping.yml",
        limit := some ("platformapi") }),
    ("httpd_restart",
      { label := "Restart HTTPD on EC2 targets",
        description := "Runs Ansible playbook to restart HTTPD service on the EC2 targets in inventory.yml (group: platformapi).",
        playbook := baseDir ++ "/ansible/httpdrestart.yml",
        limit := some ("platformapi") }),
    ("zos_ping",
      { label := "Ping z/OS host",
        description := "Runs IBM z/OS ping playbook against the mainframe host.",
        playbook := baseDir ++ "/ansible/mainframe/mainframe_ping.yaml",
        limit := some ("mainframe") }),
    ("zos_cpu_jobs",
      { label := "Show z/OS CPU jobs",
        description := "Runs a z/OS operator command playbook to display address space CPU usage.",
        playbook := baseDir ++ "/ansible/mainframe/cpujobs.yaml",
        limit := some ("zos") }),
    ("zos_submit_jcl",
      { label := "Submit JCL to z/OS",
        description := "Runs a z/OS playbook to submit JCL.",
        playbook := baseDir ++ "/ansible/mainframe/submit_jcl.yaml",
        limit := some ("zos") }) ]

/-- `ACTIONS.get(action)`. -/
def actionsGet (baseDir a : String) : Option ActionMeta :=
  ((ACTIONS baseDir).find? (fun p => p.1 == a)).map (fun p => p.2)

/-- `INVENTORY_FILE = BASE_DIR / "ansible" / "inventory.yml"`. -/
def INVENTORY_FILE (baseDir : String) : String :=
  baseDir ++ "/ansible/inventory.yml"

/-! ## Execution engine (`_run_ansible_playbook`, `execute_action`) -/

/-- `" ".join(cmd)` for the constructed ansible-playbook command line. -/
def cmdString (baseDir playbook : String) (limit : Option String) : String :=
  "ansible-playbook -i " ++ INVENTORY_FILE baseDir ++ " " ++ playbook ++
    (match limit with
     | some l => " --limit " ++ l
     | none => "")

/-- `str(Path(p).parent)`: the path with its final component removed. -/
def pathParent (p : String) : String :=
  String.mk (((p.toList.reverse.dropWhile (fun c => !(c == '/'))).drop 1).reverse)

/-- The mainframe-config detection of main.py lines 185-195: the special
`ANSIBLE_CONFIG` environment is applied when `str(mainframe_dir)` occurs in
`str(pb_path.parent)`.  The surrounding `try` swallows every exception, and
none of the string operations here can raise, so the detection is total. -/
def mainframeEnvApplies (baseDir playbook : String) : Bool :=
  containsSeq (baseDir ++ "/ansible/mainframe").toList (pathParent playbook).toList

/-- The result dict of `_run_ansible_playbook`; an `Option` field is `none`
when the corresponding key is absent from the branch's dict. -/
structure PlaybookResult where
  success : Bool
  returncode : Option Int := none
  stdout : Option String := none
  stderr : Option String := none
  cmd : Option String := none
  play_summary : Option RecapSummary := none
  error : Option String := none
deriving DecidableEq, Repr

/-- How the external `subprocess.run` invocation ends.  The source catches
`FileNotFoundError` and `subprocess.TimeoutExpired`; every other `OSError`
(for example `PermissionError` when the binary exists but is not executable)
is caught by nothing and propagates. -/
inductive ProcOutcome
  | completed (returncode : Int) (stdout stderr : String)
  | timedOut
  | binNotFound
  | raisedOther
deriving DecidableEq, Repr

/-- The ambient inputs of one call to `execute_action`: the resolved
`BASE_DIR`, whether `INVENTORY_FILE.exists()`, how the subprocess ends, and
the uuid/clock reads. -/
structure ExecEnv where
  baseDir : String
  inventoryExists : Bool
  outcome : ProcOutcome
  runId : String
  startedAt : Nat
  finishedAt : Nat

/-- `_run_ansible_playbook` either returns a result dict or lets an uncaught
exception propagate. -/
inductive PlaybookOutcome
  | returns (r : PlaybookResult)
  | raises
deriving DecidableEq, Repr

/-- `_run_ansible_playbook` (main.py lines 175-210).  The environment
override (`mainframeEnvApplies`) is passed to the subprocess and so is
already reflected in the abstract `ProcOutcome`; the binding is kept to
mirror the source. -/
def _run_ansible_playbook (env : ExecEnv) (playbook : String)
    (limit : Option String) : PlaybookOutcome :=
  let _env := mainframeEnvApplies env.baseDir playbook
  if !env.inventoryExists then
    .returns { success := false,
               error := some ("Inventory not found at " ++ INVENTORY_FILE env.baseDir) }
  else
    match env.outcome with
    | .completed rc out err =>
        .returns { success := rc == 0,
                   returncode := some rc,
                   stdout := some out,
                   stderr := some err,
                   cmd := some (cmdString env.baseDir playbook limit),
                   play_summary := some (parse_play_recap out) }
    | .binNotFound =>
        .returns { success := false,
                   error := some ("ansible-playbook binary not found in PATH.") }
    | .timedOut =>
        .returns { success := false,
                   error := some ("Ansible command timed out") }
    | .raisedOther => .raises

/-- The run-record dict built by `execute_action` and stored in `RUNS`.
`Option` fields are `none` when the merged-in result dict lacks the key. -/
structure RunRecord where
  id : String
  action : String
  status : String
  duration_s : Nat
  started_at : Nat
  scheduled : Bool
  success : Bool
  returncode : Option Int
  stdout : Option String
  stderr : Option String
  cmd : Option String
  play_summary : Option RecapSummary
  error : Option String
deriving DecidableEq, Repr

/-- One APScheduler job as installed by this service (`add_job` with
`id=f"{action}_interval"`, `args=[action, True]`, `max_instances=1`). -/
structure Job where
  id : String
  action : String
  minutes : Nat
  maxInstances : Nat
deriving DecidableEq, Repr

/-- The process-wide mutable state: the `RUNS` deque (front = most recent),
the Prometheus gauges/counters touched by the engine, and the scheduler's
job table. -/
structure ApiState where
  runs : List RunRecord
  inProgress : Int
  actionRunsTotal : String → String → Nat
  runDurationCount : String → Nat
  zosUp : Int
  jobs : List Job

/-- `ACTION_RUNS_TOTAL.labels(action=a, status=st).inc()` on a counter
family represented as a total function from labels to counts. -/
def bumpCounter (f : String → String → Nat) (a st : String) :
    String → String → Nat :=
  fun x y => if x = a ∧ y = st then f x y + 1 else f x y

/-- `ACTION_RUN_DURATION.labels(action=a).observe(d)`: one more observation
for the action's histogram. -/
def bumpHistogram (f : String → Nat) (a : String) : String → Nat :=
  fun x => if x = a then f x + 1 else f x

/-- `RUNS.appendleft(record)` on a `deque(maxlen=50)`: the record goes to
the front and the oldest (rightmost) entry is evicted beyond 50. -/
def appendRun (r : RunRecord) (l : List RunRecord) : List RunRecord :=
  (r :: l).take 50

/-- How a call to `execute_action` ends for its caller: `None` for an
unknown action, a run record, or a propagating exception. -/
inductive ExecOutcome
  | notFound
  | record (r : RunRecord)
  | raised
deriving DecidableEq, Repr

/-- `execute_action` (main.py lines 220-262).  Unknown actions return before
any mutation.  The in-progress gauge is incremented before the playbook call;
when the call raises an uncaught exception nothing after it runs, so the
state keeps the increment and gains nothing else.  On a returned result the
source then sets `ZOS_UP` for `zos_ping`, observes the duration histogram,
increments the per-action/status counter, decrements the gauge, and prepends
the record to `RUNS`; the final state collects those sequential mutations. -/
def execute_action (a : String) (scheduled : Bool) (env : ExecEnv)
    (s : ApiState) : ExecOutcome × ApiState :=
  match actionsGet env.baseDir a with
  | none => (.notFound, s)
  | some meta =>
    match _run_ansible_playbook env meta.playbook meta.limit with
    | .raises => (.raised, { s with inProgress := s.inProgress + 1 })
    | .returns result =>
      let duration := env.finishedAt - env.startedAt
      let success := result.success
      let status := if success then ("success" : String) else ("failed" : String)
      let record : RunRecord :=
        { id := env.runId, action := a, status := status,
          duration_s := duration, started_at := env.startedAt,
          scheduled := scheduled,
          success := result.success, returncode := result.returncode,
          stdout := result.stdout, stderr := result.stderr,
          cmd := result.cmd, play_summary := result.play_summary,
          error := result.error }
      (.record record,
        { runs := appendRun record s.runs,
          inProgress := s.inProgress + 1 - 1,
          actionRunsTotal := bumpCounter s.actionRunsTotal a status,
          runDurationCount := bumpHistogram s.runDurationCount a,
          zosUp := if a = "zos_ping" then (if success then 1 else 0) else s.zosUp,
          jobs := s.jobs })

/-! ## Scheduler (`set_schedule`, `start_scheduler`, main.py lines 268-358) -/

/-- What `POST /api/schedule/{action}` reports. -/
inductive ScheduleResult
  | notFound
  | scheduled (action : String) (minutes : Nat)
deriving DecidableEq, Repr

/-- `scheduler.add_job(..., id=j.id, replace_existing=True, ...)`: any job
with the same id is discarded and the new one installed. -/
def addJobReplace (jobs : List Job) (j : Job) : List Job :=
  jobs.filter (fun x => x.id != j.id) ++ [j]

/-- `set_schedule` (main.py lines 342-358): 404 for unknown actions, else
install `IntervalTrigger(minutes=minutes)` under id `f"{action}_interval"`
with `replace_existing=True` and `max_instances=1`. -/
def set_schedule (a : String) (minutes : Nat) (baseDir : String)
    (s : ApiState) : ScheduleResult × ApiState :=
  match actionsGet baseDir a with
  | none => (.notFound, s)
  | some _ =>
    (.scheduled a minutes,
      { s with jobs := addJobReplace s.jobs ⟨a ++ "_interval", a, minutes, 1⟩ })

/-- `start_scheduler` (main.py lines 270-282): install the default
`zos_ping` heartbeat every 10 minutes, id `zos_ping_interval`,
`replace_existing=True`, `max_instances=1`. -/
def start_scheduler (s : ApiState) : ApiState :=
  { s with jobs := addJobReplace s.jobs ⟨"zos_ping_interval", "zos_ping", 10, 1⟩ }

/-- The state at module load: empty ledger, gauges at zero, counters at
zero, no scheduler jobs yet. -/
def initState : ApiState :=
  { runs := [], inProgress := 0,
    actionRunsTotal := fun _ _ => 0,
    runDurationCount := fun _ => 0,
    zosUp := 0, jobs := [] }

/-! ## Spec-modelled scheduler dispatch (for the single-instance guarantee)

The skip-if-busy behaviour itself lives in APScheduler, not in this
repository's source; the source only configures every job with
`max_instances=1` (main.py lines 281 and 355). -/

/-- The multiset of job ids with a currently executing instance. -/
structure SchedState where
  running : List String
deriving DecidableEq, Repr

/-- A scheduler-relevant event: a timer tick for a job id, or the completion
of that job's executing instance. -/
inductive SchedEvent
  | tick (jobId : String)
  | complete (jobId : String)
deriving DecidableEq, Repr

/-- Modelled from the spec: APScheduler dispatch for a job configured with
`max_instances=1` — "if a tick fires while the previous invocation for that
job id has not completed, the new tick is skipped entirely (not queued, not
retried)".  A tick for a busy job id leaves the state unchanged; otherwise
the instance starts; a completion removes one executing instance. -/
def schedStep (st : SchedState) (e : SchedEvent) : SchedState :=
  match e with
  | .tick j => if j ∈ st.running then st else ⟨j :: st.running⟩
  | .complete j => ⟨st.running.erase j⟩

/-- Helper to read the run record out of an `ExecOutcome`. -/
def recordOf : ExecOutcome → Option RunRecord
  | .record r => some r
  | _ => none

/-- A concrete run record family (records distinguished by their start
time), used to instantiate the ledger theorems. -/
def mkRec (n : Nat) : RunRecord :=
  { id := "w", action := "ec2_ping", status := "success", duration_s := 0,
    started_at := n, scheduled := false, success := true, returncode := some 0,
    stdout := none, stderr := none, cmd := none, play_summary := none,
    error := none }

/-- The list `[mkRec n, ..., mkRec 1]`. -/
def mkRecs : Nat → List RunRecord
  | 0 => []
  | n + 1 => mkRec (n + 1) :: mkRecs n

/-! ## Theorems -/

/-- C1: for every action id absent from the registry, `execute_action`
returns `None` (NotFound) and `set_schedule` returns 404, and in both cases
the whole state — run ledger, in-progress gauge, per-action counters,
histograms, gauges and job table — is returned unchanged. -/
theorem unknown_action_no_mutation (a : String) (sch : Bool) (m : Nat)
    (env : ExecEnv) (s : ApiState)
    (h : actionsGet env.baseDir a = none) :
    execute_action a sch env s = (.notFound, s) ∧
    set_schedule a m env.baseDir s = (.notFound, s) := by
  constructor
  · unfold execute_action
    rw [h]
  · unfold set_schedule
    rw [h]

theorem unknown_action_no_mutation_witness :
    execute_action ("bogus") false ⟨"/app", true, .timedOut, "rid", 0, 0⟩ initState
      = (.notFound, initState) ∧
    set_schedule ("bogus") 5 ("/app") initState = (.notFound, initState) :=
  unknown_action_no_mutation ("bogus") false 5
    ⟨"/app", true, .timedOut, "rid", 0, 0⟩ initState rfl

/-- C8: `parse_play_recap` is a total Lean function (it can never raise),
and whenever the `PLAY RECAP \*+` marker does not occur in the input the
result is the empty mapping. -/
theorem parse_play_recap_no_marker (s : String)
    (h : findRecapTail s.toList = none) :
    parse_play_recap s = [] := by
  unfold parse_play_recap
  simp only [h]
  split <;> rfl

theorem parse_play_recap_no_marker_witness :
    parse_play_recap ("fatal: connection refused, no recap produced") = [] :=
  parse_play_recap_no_marker ("fatal: connection refused, no recap produced") rfl

/-- C5: evaluation of the code at the failing input.  When the subprocess
launch raises an `OSError` that is not `FileNotFoundError` (for example
`PermissionError`: the `ansible-playbook` binary exists but is not
executable), nothing in `execute_action` catches it — there is no
`try/finally` around `IN_PROGRESS_RUNS.inc()` — so the exception propagates
to the caller with the in-progress gauge left permanently incremented, no
run record appended and no counter observed. -/
theorem in_progress_gauge_leak :
    (execute_action ("ec2_ping") false ⟨"/app", true, .raisedOther, "rid", 0, 5⟩
        initState).1 = .raised ∧
    ((execute_action ("ec2_ping") false ⟨"/app", true, .raisedOther, "rid", 0, 5⟩
        initState).2).inProgress = initState.inProgress + 1 ∧
    ((execute_action ("ec2_ping") false ⟨"/app", true, .raisedOther, "rid", 0, 5⟩
        initState).2).runs = initState.runs ∧
    ((execute_action ("ec2_ping") false ⟨"/app", true, .raisedOther, "rid", 0, 5⟩
        initState).2).actionRunsTotal = initState.actionRunsTotal :=
  ⟨rfl, rfl, rfl, rfl⟩

/-- C4 counterexample: for a known action whose subprocess exceeds the
180-second timeout, the returned run record has `stdout = none`,
`stderr = none` and `play_summary = none` — the source's
`except subprocess.TimeoutExpired` branch returns only
`{"success": False, "error": "Ansible command timed out"}`, so contrary to
the claim the process output is not captured and the output parser is not
run. -/
theorem timeout_discards_output :
    (recordOf (execute_action ("ec2_ping") false
        ⟨"/app", true, .timedOut, "rid", 0, 5⟩ initState).1).map
      (fun r => (r.stdout, r.stderr, r.play_summary))
      = some (none, none, none) := rfl

/-- C4 (amended): for every known action id whose external process exceeds
the 180-second timeout, `execute_action` returns a run record with status
`failed`, `error = "Ansible command timed out"` and no exit code; the
process output is discarded: the record carries no stdout, no stderr and no
summary (the output parser is not run on timeout). -/
theorem timeout_record (a : String) (sch : Bool) (env : ExecEnv)
    (s : ApiState) (meta : ActionMeta)
    (hm : actionsGet env.baseDir a = some meta)
    (hinv : env.inventoryExists = true)
    (hout : env.outcome = .timedOut) :
    ∃ r, (execute_action a sch env s).1 = .record r ∧
      r.status = "failed" ∧
      r.error = some ("Ansible command timed out") ∧
      r.returncode = none ∧
      r.stdout = none ∧ r.stderr = none ∧ r.play_summary = none := by
  unfold execute_action _run_ansible_playbook
  rw [hm, hinv, hout]
  exact ⟨_, rfl, rfl, rfl, rfl, rfl, rfl, rfl⟩

theorem timeout_record_witness :
    ∃ r, (execute_action ("httpd_restart") true
        ⟨"/app", true, .timedOut, "rid", 3, 9⟩ initState).1 = .record r ∧
      r.status = "failed" ∧
      r.error = some ("Ansible command timed out") ∧
      r.returncode = none ∧
      r.stdout = none ∧ r.stderr = none ∧ r.play_summary = none :=
  timeout_record ("httpd_restart") true ⟨"/app", true, .timedOut, "rid", 3, 9⟩
    initState _ rfl rfl rfl

/-- C6: for every known action id whose executable cannot be launched
(`FileNotFoundError` from `subprocess.run`), `execute_action` returns — and
never raises — a run record with status `failed`, the error message set, no
exit code and no summary; the `failed` counter for that action is
incremented exactly once and every other (action, status) counter is left
unchanged. -/
theorem launch_failure_record (a : String) (sch : Bool) (env : ExecEnv)
    (s : ApiState) (meta : ActionMeta)
    (hm : actionsGet env.baseDir a = some meta)
    (hinv : env.inventoryExists = true)
    (hout : env.outcome = .binNotFound) :
    ∃ r, (execute_action a sch env s).1 = .record r ∧
      r.status = "failed" ∧
      r.error = some ("ansible-playbook binary not found in PATH.") ∧
      r.returncode = none ∧
      r.play_summary = none ∧
      ((execute_action a sch env s).2).actionRunsTotal a ("failed")
        = s.actionRunsTotal a ("failed") + 1 ∧
      (∀ x y : String, ¬(x = a ∧ y = "failed") →
        ((execute_action a sch env s).2).actionRunsTotal x y
          = s.actionRunsTotal x y) := by
  unfold execute_action _run_ansible_playbook
  rw [hm, hinv, hout]
  refine ⟨_, rfl, rfl, rfl, rfl, rfl, ?_, ?_⟩
  · show bumpCounter s.actionRunsTotal a ("failed") a ("failed")
      = s.actionRunsTotal a ("failed") + 1
    simp [bumpCounter]
  · intro x y hxy
    show bumpCounter s.actionRunsTotal a ("failed") x y = s.actionRunsTotal x y
    simp only [bumpCounter]
    rw [if_neg hxy]

theorem launch_failure_record_witness :
    ∃ r, (execute_action ("zos_cpu_jobs") false
        ⟨"/app", true, .binNotFound, "rid", 0, 0⟩ initState).1 = .record r ∧
      r.status = "failed" ∧
      r.error = some ("ansible-playbook binary not found in PATH.") ∧
      r.returncode = none ∧
      r.play_summary = none ∧
      ((execute_action ("zos_cpu_jobs") false
          ⟨"/app", true, .binNotFound, "rid", 0, 0⟩ initState).2).actionRunsTotal
        ("zos_cpu_jobs") ("failed")
        = initState.actionRunsTotal ("zos_cpu_jobs") ("failed") + 1 ∧
      (∀ x y : String, ¬(x = "zos_cpu_jobs" ∧ y = "failed") →
        ((execute_action ("zos_cpu_jobs") false
            ⟨"/app", true, .binNotFound, "rid", 0, 0⟩ initState).2).actionRunsTotal x y
          = initState.actionRunsTotal x y) :=
  launch_failure_record ("zos_cpu_jobs") false
    ⟨"/app", true, .binNotFound, "rid", 0, 0⟩ initState _ rfl rfl rfl

/-- C7: for every known action id whose external process runs to
completion, the resulting run record's status is `success` exactly when the
exit code is zero, and `failed` exactly when it is non-zero. -/
theorem status_iff_exit_zero (a : String) (sch : Bool) (env : ExecEnv)
    (s : ApiState) (meta : ActionMeta) (rc : Int) (out err : String)
    (hm : actionsGet env.baseDir a = some meta)
    (hinv : env.inventoryExists = true)
    (hout : env.outcome = .completed rc out err) :
    ∃ r, (execute_action a sch env s).1 = .record r ∧
      (r.status = "success" ↔ rc = 0) ∧
      (r.status = "failed" ↔ rc ≠ 0) := by
  unfold execute_action _run_ansible_playbook
  rw [hm, hinv, hout]
  refine ⟨_, rfl, ?_, ?_⟩ <;>
    rcases eq_or_ne rc 0 with hrc | hrc <;>
      simp [hrc]

theorem status_iff_exit_zero_witness :
    (∃ r, (execute_action ("ec2_ping") false
        ⟨"/app", true, .completed 0 ("") (""), "rid", 0, 1⟩ initState).1 = .record r ∧
      (r.status = "success" ↔ (0 : Int) = 0) ∧
      (r.status = "failed" ↔ (0 : Int) ≠ 0)) ∧
    (∃ r, (execute_action ("ec2_ping") false
        ⟨"/app", true, .completed 4 ("") (""), "rid", 0, 1⟩ initState).1 = .record r ∧
      (r.status = "success" ↔ (4 : Int) = 0) ∧
      (r.status = "failed" ↔ (4 : Int) ≠ 0)) :=
  ⟨status_iff_exit_zero ("ec2_ping") false
      ⟨"/app", true, .completed 0 ("") (""), "rid", 0, 1⟩ initState _ 0 ("") ("")
      rfl rfl rfl,
    status_iff_exit_zero ("ec2_ping") false
      ⟨"/app", true, .completed 4 ("") (""), "rid", 0, 1⟩ initState _ 4 ("") ("")
      rfl rfl rfl⟩

/-- For a known action, the final `ZOS_UP` value of `execute_action`: set
from the run's success exactly when the action is `zos_ping`, untouched
otherwise (and untouched on a propagating exception). -/
theorem execute_zosUp_eq (a : String) (sch : Bool) (env : ExecEnv)
    (s : ApiState) (meta : ActionMeta)
    (hm : actionsGet env.baseDir a = some meta) :
    ((execute_action a sch env s).2).zosUp =
      match (execute_action a sch env s).1 with
      | .record r =>
          if a = "zos_ping" then (if r.status = "success" then (1 : Int) else 0)
          else s.zosUp
      | _ => s.zosUp := by
  unfold execute_action
  rw [hm]
  dsimp only
  cases hpb : _run_ansible_playbook env meta.playbook meta.limit with
  | raises => rfl
  | returns result =>
    dsimp only
    cases hsucc : result.success <;> by_cases hz : a = "zos_ping" <;>
      simp [hz, show ("failed" : String) ≠ "success" by decide]

/-- C10: after every completed execution of `zos_ping` the `ZOS_UP` gauge
equals 1 when the run record's status is `success` and 0 when it is
`failed`; executing any other action id leaves the gauge unchanged. -/
theorem zos_up_gauge (a : String) (sch : Bool) (env : ExecEnv)
    (s : ApiState) :
    (∀ r, (execute_action ("zos_ping") sch env s).1 = .record r →
      ((execute_action ("zos_ping") sch env s).2).zosUp
        = (if r.status = "success" then (1 : Int) else 0)) ∧
    (a ≠ "zos_ping" → ((execute_action a sch env s).2).zosUp = s.zosUp) := by
  constructor
  · intro r hr
    have hm : actionsGet env.baseDir ("zos_ping") = some
        { label := "Ping z/OS host",
          description := "Runs IBM z/OS ping playbook against the mainframe host.",
          playbook := env.baseDir ++ "/ansible/mainframe/mainframe_ping.yaml",
          limit := some ("mainframe") } := rfl
    have h := execute_zosUp_eq ("zos_ping") sch env s _ hm
    rw [hr] at h
    simpa using h
  · intro ha
    cases hm : actionsGet env.baseDir a with
    | none =>
      unfold execute_action
      rw [hm]
    | some meta =>
      rw [execute_zosUp_eq a sch env s meta hm]
      cases hx : (execute_action a sch env s).1 with
      | record r => simp [ha]
      | notFound => rfl
      | raised => rfl

theorem zos_up_gauge_witness :
    (((execute_action ("zos_ping") false
        ⟨"/app", true, .completed 0 ("") (""), "rid", 0, 1⟩ initState).2).zosUp
      = 1) ∧
    (((execute_action ("zos_ping") false
        ⟨"/app", true, .completed 7 ("") (""), "rid", 0, 1⟩ initState).2).zosUp
      = 0) ∧
    (((execute_action ("httpd_restart") false
        ⟨"/app", true, .completed 0 ("") (""), "rid", 0, 1⟩ initState).2).zosUp
      = initState.zosUp) :=
  ⟨(zos_up_gauge ("x") false
      ⟨"/app", true, .completed 0 ("") (""), "rid", 0, 1⟩ initState).1 _ rfl,
   (zos_up_gauge ("x") false
      ⟨"/app", true, .completed 7 ("") (""), "rid", 0, 1⟩ initState).1 _ rfl,
   (zos_up_gauge ("httpd_restart") false
      ⟨"/app", true, .completed 0 ("") (""), "rid", 0, 1⟩ initState).2
     (by decide)⟩

/-- Truncating an already-truncated right summand is invisible to an outer
truncation. -/
theorem take_app_take {α : Type} (n : Nat) (xs ys : List α) :
    (xs ++ ys.take n).take n = (xs ++ ys).take n := by
  rw [List.take_append_eq_append_take, List.take_append_eq_append_take,
    List.take_take]
  congr 1
  rw [Nat.min_eq_left (Nat.sub_le n xs.length)]

/-- Folding `appendRun` over a sequence of records, starting from any
already-bounded ledger, yields the 50 most recent records, newest first. -/
theorem foldl_appendRun (rs : List RunRecord) :
    ∀ acc : List RunRecord, acc.take 50 = acc →
      rs.foldl (fun l r => appendRun r l) acc = (rs.reverse ++ acc).take 50 := by
  induction rs with
  | nil => intro acc h; simpa using h.symm
  | cons r rs ih =>
    intro acc h
    rw [List.foldl_cons]
    have h2 : (appendRun r acc).take 50 = appendRun r acc := by
      simp [appendRun, List.take_take]
    rw [ih _ h2]
    show (rs.reverse ++ (r :: acc).take 50).take 50
      = ((r :: rs).reverse ++ acc).take 50
    rw [take_app_take]
    simp [List.reverse_cons, List.append_assoc]

/-- C2: the `RUNS` deque (`maxlen=50`, written only through `appendleft`)
never holds more than 50 records; any sequence of appends leaves exactly the
50 most recent records in most-recent-first insertion order; and after
appending a 51st record the first-appended record is gone. -/
theorem run_ledger_capacity (r0 : RunRecord) (rest : List RunRecord)
    (h50 : rest.length = 50) (hn : r0 ∉ rest) :
    (∀ (r : RunRecord) (l : List RunRecord), (appendRun r l).length ≤ 50) ∧
    (∀ rs : List RunRecord,
      rs.foldl (fun l r => appendRun r l) [] = rs.reverse.take 50) ∧
    (r0 :: rest).foldl (fun l r => appendRun r l) [] = rest.reverse ∧
    r0 ∉ (r0 :: rest).foldl (fun l r => appendRun r l) [] := by
  have hfold : ∀ rs : List RunRecord,
      rs.foldl (fun l r => appendRun r l) [] = rs.reverse.take 50 := by
    intro rs
    rw [foldl_appendRun rs [] rfl]
    simp
  have hmain : (r0 :: rest).foldl (fun l r => appendRun r l) [] = rest.reverse := by
    rw [hfold, List.reverse_cons]
    have hl : rest.reverse.length = 50 := by simp [h50]
    rw [← hl, List.take_left]
  refine ⟨?_, hfold, hmain, ?_⟩
  · intro r l
    simp only [appendRun, List.length_take, List.length_cons]
    omega
  · rw [hmain]
    simpa using hn

theorem run_ledger_capacity_witness :
    mkRec 0 ∉ (mkRec 0 :: mkRecs 50).foldl (fun l r => appendRun r l) [] ∧
    (mkRec 0 :: mkRecs 50).foldl (fun l r => appendRun r l) []
      = (mkRecs 50).reverse :=
  ⟨(run_ledger_capacity (mkRec 0) (mkRecs 50) (by decide) (by decide)).2.2.2,
   (run_ledger_capacity (mkRec 0) (mkRecs 50) (by decide) (by decide)).2.2.1⟩

/-- C9: for every registered action id and any two intervals, scheduling the
action twice leaves exactly one job under the action's derived job id
`f"{action}_interval"`, carrying the second interval: `replace_existing=True`
discards the prior entry entirely. -/
theorem set_schedule_replaces (a baseDir : String) (m1 m2 : Nat)
    (s : ApiState) (meta : ActionMeta)
    (hm : actionsGet baseDir a = some meta) :
    (((set_schedule a m2 baseDir (set_schedule a m1 baseDir s).2).2).jobs.filter
        (fun jb => jb.id == a ++ "_interval"))
      = [⟨a ++ "_interval", a, m2, 1⟩] := by
  have key : ∀ l : List Job,
      (l.filter (fun x => x.id != a ++ "_interval")).filter
        (fun jb => jb.id == a ++ "_interval") = [] := by
    intro l
    rw [List.filter_eq_nil_iff]
    intro x hx
    have hp := (List.mem_filter.mp hx).2
    simp only [bne_iff_ne, ne_eq] at hp
    simp [hp]
  unfold set_schedule
  rw [hm]
  dsimp only
  show (((s.jobs.filter (fun x => x.id != a ++ "_interval")
        ++ [(⟨a ++ "_interval", a, m1, 1⟩ : Job)]).filter
          (fun x => x.id != a ++ "_interval")
        ++ [(⟨a ++ "_interval", a, m2, 1⟩ : Job)]).filter
          (fun jb => jb.id == a ++ "_interval"))
      = [(⟨a ++ "_interval", a, m2, 1⟩ : Job)]
  rw [List.filter_append, List.filter_append, List.filter_append, key]
  simp

theorem set_schedule_replaces_witness :
    (((set_schedule ("ec2_ping") 10 ("/app")
          (set_schedule ("ec2_ping") 5 ("/app") initState).2).2).jobs.filter
        (fun jb => jb.id == "ec2_ping" ++ "_interval"))
      = [⟨"ec2_ping" ++ "_interval", "ec2_ping", 10, 1⟩] :=
  set_schedule_replaces ("ec2_ping") ("/app") 5 10 initState _ rfl

/-- One `schedStep` preserves "at most one executing instance per job id". -/
theorem schedStep_count_le (st : SchedState) (e : SchedEvent)
    (h : ∀ j, st.running.count j ≤ 1) :
    ∀ j, (schedStep st e).running.count j ≤ 1 := by
  intro j
  cases e with
  | tick j1 =>
    by_cases hj : j1 ∈ st.running
    · simpa [schedStep, hj] using h j
    · simp only [schedStep, if_neg hj]
      rcases eq_or_ne j j1 with rfl | hne
      · have h0 : st.running.count j = 0 := List.count_eq_zero.mpr hj
        simp [List.count_cons_self, h0]
      · rw [List.count_cons_of_ne hne]
        exact h j
  | complete j1 =>
    calc (st.running.erase j1).count j
        ≤ st.running.count j := (List.erase_sublist j1 st.running).count_le j
      _ ≤ 1 := h j

/-- C3: the repository installs every scheduled job — the startup `zos_ping`
heartbeat and every job created through `set_schedule` — with
`max_instances=1`; under the spec-modelled dispatch for that setting,
starting from the idle scheduler, every event trace keeps at most one
executing instance per job id, and a tick that fires while its job is still
executing is skipped entirely (the scheduler state is unchanged: nothing is
queued or retried). -/
theorem scheduled_job_single_instance (es : List SchedEvent) (j : String) :
    ((es.foldl schedStep ⟨[]⟩).running.count j ≤ 1) ∧
    (∀ st : SchedState, j ∈ st.running → schedStep st (.tick j) = st) ∧
    (∀ (a : String) (m : Nat) (baseDir : String) (s : ApiState) (jb : Job),
      jb ∈ ((set_schedule a m baseDir s).2).jobs →
        jb ∈ s.jobs ∨ jb.maxInstances = 1) ∧
    (∀ (s : ApiState) (jb : Job),
      jb ∈ (start_scheduler s).jobs → jb ∈ s.jobs ∨ jb.maxInstances = 1) := by
  refine ⟨?_, ?_, ?_, ?_⟩
  · have key : ∀ (es : List SchedEvent) (st : SchedState),
        (∀ i, st.running.count i ≤ 1) →
        ∀ i, (es.foldl schedStep st).running.count i ≤ 1 := by
      intro es
      induction es with
      | nil => intro st h; exact h
      | cons e es ih =>
        intro st h
        exact ih _ (schedStep_count_le st e h)
    exact key es ⟨[]⟩ (by intro i; simp) j
  · intro st hj
    simp [schedStep, hj]
  · intro a m baseDir s jb hjb
    cases hm : actionsGet baseDir a with
    | none =>
      unfold set_schedule at hjb
      rw [hm] at hjb
      exact Or.inl hjb
    | some meta =>
      unfold set_schedule at hjb
      rw [hm] at hjb
      dsimp only at hjb
      unfold addJobReplace at hjb
      rcases List.mem_append.mp hjb with hl | hr
      · exact Or.inl (List.mem_filter.mp hl).1
      · right
        rw [List.mem_singleton.mp hr]
  · intro s jb hjb
    unfold start_scheduler addJobReplace at hjb
    rcases List.mem_append.mp hjb with hl | hr
    · exact Or.inl (List.mem_filter.mp hl).1
    · right
      rw [List.mem_singleton.mp hr]

theorem scheduled_job_single_instance_witness :
    (([SchedEvent.tick ("zos_ping_interval"),
       SchedEvent.tick ("zos_ping_interval")].foldl schedStep
        ⟨[]⟩).running.count ("zos_ping_interval") ≤ 1) ∧
    (schedStep ⟨[("zos_ping_interval")]⟩ (.tick ("zos_ping_interval"))
      = ⟨[("zos_ping_interval")]⟩) ∧
    ((⟨"ec2_ping_interval", "ec2_ping", 7, 1⟩ : Job) ∈ initState.jobs ∨
      (⟨"ec2_ping_interval", "ec2_ping", 7, 1⟩ : Job).maxInstances = 1) ∧
    ((⟨"zos_ping_interval", "zos_ping", 10, 1⟩ : Job) ∈ initState.jobs ∨
      (⟨"zos_ping_interval", "zos_ping", 10, 1⟩ : Job).maxInstances = 1) :=
  ⟨(scheduled_job_single_instance
      [SchedEvent.tick ("zos_ping_interval"), SchedEvent.tick ("zos_ping_interval")]
      ("zos_ping_interval")).1,
   (scheduled_job_single_instance [] ("zos_ping_interval")).2.1
     ⟨[("zos_ping_interval")]⟩ (by simp),
   (scheduled_job_single_instance [] ("zos_ping_interval")).2.2.1
     ("ec2_ping") 7 ("/app") initState ⟨"ec2_ping_interval", "ec2_ping", 7, 1⟩
     (by decide),
   (scheduled_job_single_instance [] ("zos_ping_interval")).2.2.2
     initState ⟨"zos_ping_interval", "zos_ping", 10, 1⟩ (by decide)⟩
